import Mathlib

/-!
Verification of the case-log review workflow of the log-book API.

The definitions below are a shallow embedding of the behavioral core of the
repository: the `Log` data model (prisma/schema.prisma), the task-controller
endpoints (src/controllers/task.controller.ts: updateTask, deleteTask,
approveTask, rejectTask, generateCaseNo) and the submission-controller
endpoints (src/controllers/submission.controller.ts: approveCase, rejectCase,
getSubmissions aggregation and pagination).  Database persistence is modelled
by explicit state passing: each endpoint takes the record(s) it reads and
returns `Except ApiError Log`, where an `error` outcome performs no write.
Timestamps are abstract `Nat` instants supplied as a `now` parameter.
-/

namespace LogBook

/-- `enum LogStatus` of prisma/schema.prisma. -/
inductive LogStatus where
  | DRAFT
  | SUBMITTED
  | APPROVED
  | REJECTED
  | RESUBMITTED
deriving DecidableEq, Repr

/-- `enum Sex` of prisma/schema.prisma. -/
inductive Sex where
  | MALE
  | FEMALE
  | OTHER
deriving DecidableEq, Repr

/-- A calendar date, the granularity at which `Log.date` is compared by
`generateCaseNo` (`new Date` range bounds at `YYYY-01-01` / `YYYY-12-31`). -/
structure CalDate where
  year : Nat
  month : Nat
  day : Nat
deriving DecidableEq, Repr

/-- Lexicographic comparison of calendar dates (the `gte`/`lte` of the
`date` range filter). -/
def CalDate.le (a b : CalDate) : Bool :=
  a.year < b.year ||
    (a.year == b.year &&
      (a.month < b.month || (a.month == b.month && a.day ≤ b.day)))

/-- The parts of `model Course` the workflow reads: the primary owner
(`teacherId`) and the co-teachers reachable through the `courseTeachers`
join relation. -/
structure Course where
  id : String
  teacherId : String
  coTeacherIds : List String
deriving DecidableEq, Repr

/-- `model Log` of prisma/schema.prisma (workflow-relevant columns; the
schema spells the rejecter foreign key `rejectedByID`). -/
structure Log where
  id : String
  caseNo : String
  date : CalDate
  age : Nat
  sex : Sex
  uhid : String
  chiefComplaint : String
  historyPresenting : String
  pastHistory : String
  personalHistory : String
  familyHistory : String
  clinicalExamination : String
  labExaminations : String
  diagnosis : String
  management : String
  status : LogStatus
  rejectionReason : Option String
  teacherComments : Option String
  submittedAt : Option Nat
  approvedAt : Option Nat
  rejectedAt : Option Nat
  courseId : String
  createdById : String
  approvedById : Option String
  rejectedByID : Option String
deriving DecidableEq, Repr

/-- An HTTP-level error response: status code and message. -/
structure ApiError where
  status : Nat
  message : String
deriving DecidableEq, Repr

/-- Whether an endpoint outcome is an error response (no write happened). -/
def isErr {α : Type} : Except ApiError α → Bool
  | .error _ => true
  | .ok _ => false

/-- The stored log after an endpoint call: only the `ok` branch of a
controller reaches `prisma.log.update`, an error response leaves the row
untouched. -/
def applyOn (l : Log) : Except ApiError Log → Log
  | .ok l' => l'
  | .error _ => l

@[simp] theorem isErr_error {α : Type} (e : ApiError) :
    isErr (α := α) (.error e) = true := rfl

@[simp] theorem isErr_ok {α : Type} (a : α) : isErr (.ok a) = false := rfl

@[simp] theorem applyOn_error (l : Log) (e : ApiError) :
    applyOn l (.error e) = l := rfl

@[simp] theorem applyOn_ok (l l' : Log) : applyOn l (.ok l') = l' := rfl

/-- The runtime's `String.prototype.trim()`: strip leading and trailing
whitespace. -/
def jsTrim (s : String) : String :=
  String.mk
    ((s.data.dropWhile Char.isWhitespace).reverse.dropWhile
      Char.isWhitespace).reverse

/-! ### TaskController (src/controllers/task.controller.ts) -/

/-- The body accepted by `updateTaskSchema` (`createTaskSchema.partial()`
with status widened to DRAFT/SUBMITTED/RESUBMITTED): every field optional. -/
structure UpdateTaskInput where
  caseNo : Option String := none
  date : Option CalDate := none
  age : Option Nat := none
  sex : Option Sex := none
  uhid : Option String := none
  chiefComplaint : Option String := none
  historyPresenting : Option String := none
  pastHistory : Option String := none
  personalHistory : Option String := none
  familyHistory : Option String := none
  clinicalExamination : Option String := none
  labExaminations : Option String := none
  diagnosis : Option String := none
  management : Option String := none
  status : Option LogStatus := none
  courseId : Option String := none
deriving Repr

/-- An optional field passes a zod bound check when absent or in range. -/
def optOk {α : Type} (P : α → Bool) : Option α → Bool
  | none => true
  | some a => P a

/-- `updateTaskSchema.safeParse`: the per-field zod constraints of
`createTaskSchema.partial()` plus the status enum restriction. -/
def validUpdateInput (p : UpdateTaskInput) : Bool :=
  optOk (fun a => 0 < a && a ≤ 120) p.age &&
  optOk (fun s => 1 ≤ s.length && s.length ≤ 20) p.uhid &&
  optOk (fun s => 1 ≤ s.length && s.length ≤ 1000) p.chiefComplaint &&
  optOk (fun s => 1 ≤ s.length && s.length ≤ 2000) p.historyPresenting &&
  optOk (fun s => s.length ≤ 1000) p.pastHistory &&
  optOk (fun s => s.length ≤ 1000) p.personalHistory &&
  optOk (fun s => s.length ≤ 1000) p.familyHistory &&
  optOk (fun s => 1 ≤ s.length && s.length ≤ 2000) p.clinicalExamination &&
  optOk (fun s => s.length ≤ 2000) p.labExaminations &&
  optOk (fun s => 1 ≤ s.length && s.length ≤ 1000) p.diagnosis &&
  optOk (fun s => 1 ≤ s.length && s.length ≤ 2000) p.management &&
  optOk (fun s : LogStatus =>
    s == .DRAFT || s == .SUBMITTED || s == .RESUBMITTED) p.status

/-- The duplicate case-number check of `updateTask`: only when a changed
`caseNo` is supplied, `findUnique({ where: { caseNo } })` over the table. -/
def caseNoDuplicate (db : List Log) (l : Log) (p : UpdateTaskInput) : Bool :=
  match p.caseNo with
  | none => false
  | some c => c != l.caseNo && db.any (fun x => x.caseNo == c)

/-- The `updateData` content assignments of `updateTask`: each provided
field overwrites the stored one. -/
def applyContentFields (p : UpdateTaskInput) (l : Log) : Log :=
  { l with
    caseNo := p.caseNo.getD l.caseNo
    date := p.date.getD l.date
    age := p.age.getD l.age
    sex := p.sex.getD l.sex
    uhid := p.uhid.getD l.uhid
    chiefComplaint := p.chiefComplaint.getD l.chiefComplaint
    historyPresenting := p.historyPresenting.getD l.historyPresenting
    pastHistory := p.pastHistory.getD l.pastHistory
    personalHistory := p.personalHistory.getD l.personalHistory
    familyHistory := p.familyHistory.getD l.familyHistory
    clinicalExamination := p.clinicalExamination.getD l.clinicalExamination
    labExaminations := p.labExaminations.getD l.labExaminations
    diagnosis := p.diagnosis.getD l.diagnosis
    management := p.management.getD l.management
    courseId := p.courseId.getD l.courseId }

/-- The status-change block of `updateTask`: it fires only when a status is
provided and differs from the stored one; SUBMITTED stamps `submittedAt`,
RESUBMITTED additionally clears `rejectionReason`, DRAFT clears
`submittedAt`. -/
def applyStatusChange (p : UpdateTaskInput) (now : Nat) (l0 l : Log) : Log :=
  match p.status with
  | none => l
  | some s =>
    if s = l0.status then l
    else
      match s with
      | .SUBMITTED => { l with status := s, submittedAt := some now }
      | .RESUBMITTED =>
          { l with status := s, submittedAt := some now,
                   rejectionReason := none }
      | .DRAFT => { l with status := s, submittedAt := none }
      | _ => { l with status := s }

/-- `TaskController.updateTask`, applied to the log the `findUnique` lookup
returned: body validation, creator-only check, the APPROVED guard, the
duplicate case-number check, then the write. -/
def updateTask (db : List Log) (actorId : String) (l : Log)
    (p : UpdateTaskInput) (now : Nat) : Except ApiError Log :=
  if validUpdateInput p = false then
    .error ⟨400, "Validation failed"⟩
  else if l.createdById ≠ actorId then
    .error ⟨403, "Access denied"⟩
  else if l.status = .APPROVED then
    .error ⟨400, "Cannot update approved tasks"⟩
  else if caseNoDuplicate db l p then
    .error ⟨409, "Case number already exists"⟩
  else
    .ok (applyStatusChange p now l (applyContentFields p l))

/-- `TaskController.deleteTask`, applied to the log the lookup returned:
creator-only, DRAFT-only, then the hard delete (`ok`). -/
def deleteTask (actorId : String) (l : Log) : Except ApiError Unit :=
  if l.createdById ≠ actorId then
    .error ⟨403, "Access denied"⟩
  else if l.status ≠ .DRAFT then
    .error ⟨400, "Can only delete draft tasks"⟩
  else
    .ok ()

/-- `TaskController.approveTask`: `approveTaskSchema` comment bound, the
primary-teacher check against `log.course.teacherId`, the
SUBMITTED/RESUBMITTED guard, then the update.  The update writes `status`,
`approvedById`, `approvedAt` and nulls `rejectionReason`; the request's
`comments` are not persisted. -/
def approveTask (course : Course) (actorId : String) (l : Log)
    (comments : Option String) (now : Nat) : Except ApiError Log :=
  if optOk (fun s : String => s.length ≤ 1000) comments = false then
    .error ⟨400, "Validation failed"⟩
  else if course.teacherId ≠ actorId then
    .error ⟨403, "Only course teacher can approve tasks"⟩
  else if ¬ (l.status = .SUBMITTED ∨ l.status = .RESUBMITTED) then
    .error ⟨400, "Can only approve submitted or resubmitted tasks"⟩
  else
    .ok { l with status := .APPROVED, approvedById := some actorId,
                 approvedAt := some now, rejectionReason := none }

/-- `TaskController.rejectTask`: `rejectTaskSchema` requires a
`rejectionReason` of 1 to 1000 characters; then the primary-teacher check
and the SUBMITTED/RESUBMITTED guard.  The update writes `status := REJECTED`,
the trimmed reason, `rejectedAt` and stores the acting teacher in
`approvedById` (the schema's `rejectedByID` column is not written). -/
def rejectTask (course : Course) (actorId : String) (l : Log)
    (rejectionReason : String) (now : Nat) : Except ApiError Log :=
  if rejectionReason.length < 1 ∨ 1000 < rejectionReason.length then
    .error ⟨400, "Validation failed"⟩
  else if course.teacherId ≠ actorId then
    .error ⟨403, "Only course teacher can reject tasks"⟩
  else if ¬ (l.status = .SUBMITTED ∨ l.status = .RESUBMITTED) then
    .error ⟨400, "Can only reject submitted or resubmitted tasks"⟩
  else
    .ok { l with status := .REJECTED,
                 rejectionReason := some (jsTrim rejectionReason),
                 rejectedAt := some now,
                 approvedById := some actorId }

/-- `Log.count` of `generateCaseNo`: logs of the course whose `date` lies in
the closed range from Jan 1 to Dec 31 of the year. -/
def countCourseYearLogs (db : List Log) (courseId : String) (year : Nat) :
    Nat :=
  (db.filter (fun l =>
    l.courseId == courseId &&
    (CalDate.le ⟨year, 1, 1⟩ l.date && CalDate.le l.date ⟨year, 12, 31⟩)
  )).length

/-- `String.prototype.padStart(n, c)`: left-pad to length `n` (never
truncates). -/
def padStart (s : String) (n : Nat) (c : Char) : String :=
  String.mk (List.replicate (n - s.length) c) ++ s

/-- `TaskController.generateCaseNo`: sequence number is the course/year log
count plus one, zero-padded to three digits, in the template
`CASE-<year>-<seq>`. -/
def generateCaseNo (db : List Log) (courseId : String) (currentYear : Nat) :
    String :=
  "CASE-" ++ toString currentYear ++ "-" ++
    padStart (toString (countCourseYearLogs db courseId currentYear + 1)) 3 '0'

/-! ### SubmissionController (src/controllers/submission.controller.ts) -/

/-- `teacherComments?.trim() || null`: absent or whitespace-only comments
are stored as null, otherwise the trimmed text. -/
def trimmedOrNone : Option String → Option String
  | none => none
  | some s => if jsTrim s = "" then none else some (jsTrim s)

/-- The `findFirst` condition of `approveCase`: the log's course is owned by
the acting teacher and the status is exactly SUBMITTED. -/
def approveCaseCheck (course : Course) (teacherId : String) (l : Log) :
    Bool :=
  course.teacherId == teacherId && l.status == .SUBMITTED

/-- The transaction body of `approveCase`: an update keyed on `id` only,
with no status condition in its where clause. -/
def approveCaseWrite (teacherId : String) (teacherComments : Option String)
    (now : Nat) (l : Log) : Log :=
  { l with status := .APPROVED, approvedById := some teacherId,
           approvedAt := some now,
           teacherComments := trimmedOrNone teacherComments }

/-- `SubmissionController.approveCase`: the precondition read
(`approveCaseCheck`) happens before the transaction; failure is the 404
"not found, already processed, or no permission" response. -/
def approveCase (course : Course) (teacherId : String) (l : Log)
    (teacherComments : Option String) (now : Nat) : Except ApiError Log :=
  if approveCaseCheck course teacherId l then
    .ok (approveCaseWrite teacherId teacherComments now l)
  else
    .error ⟨404,
      "Submission not found, already processed, or you do not have permission to approve it"⟩

/-- The `findFirst` condition of `rejectCase`: same owner-and-SUBMITTED
condition as the approve path. -/
def rejectCaseCheck (course : Course) (teacherId : String) (l : Log) :
    Bool :=
  course.teacherId == teacherId && l.status == .SUBMITTED

/-- The transaction body of `rejectCase`: an update keyed on `id` only,
writing status, trimmed reason, comments and `rejectedAt` (neither
`rejectedByID` nor `approvedById` is touched). -/
def rejectCaseWrite (rejectionReason : String)
    (teacherComments : Option String) (now : Nat) (l : Log) : Log :=
  { l with status := .REJECTED,
           rejectionReason := some (jsTrim rejectionReason),
           teacherComments := trimmedOrNone teacherComments,
           rejectedAt := some now }

/-- `SubmissionController.rejectCase`: reason present and non-blank, at most
1000 characters after trimming, then the pre-transaction `findFirst` check
and the unconditional-by-status update. -/
def rejectCase (course : Course) (teacherId : String) (l : Log)
    (rejectionReason : Option String) (teacherComments : Option String)
    (now : Nat) : Except ApiError Log :=
  match rejectionReason with
  | none => .error ⟨400, "Rejection reason is required and cannot be empty"⟩
  | some r =>
    if jsTrim r = "" then
      .error ⟨400, "Rejection reason is required and cannot be empty"⟩
    else if 1000 < (jsTrim r).length then
      .error ⟨400, "Rejection reason cannot exceed 1000 characters"⟩
    else if rejectCaseCheck course teacherId l then
      .ok (rejectCaseWrite r teacherComments now l)
    else
      .error ⟨404,
        "Submission not found, already processed, or you do not have permission to reject it"⟩

/-- Interleaved execution of `approveCase` and `rejectCase` on the same log:
both `findFirst` precondition reads run against the initial row before
either transaction commits, then the two writes (each keyed on `id` only)
land in order.  Returns whether each request reported success, and the final
stored row. -/
def interleavedApproveReject (course : Course) (t1 t2 : String)
    (rejectionReason : String) (now1 now2 : Nat) (l : Log) :
    Bool × Bool × Log :=
  let ok1 := approveCaseCheck course t1 l
  let ok2 := rejectCaseCheck course t2 l
  let l1 := if ok1 then approveCaseWrite t1 none now1 l else l
  let l2 := if ok2 then rejectCaseWrite rejectionReason none now2 l1 else l1
  (ok1, ok2, l2)

/-! ### getSubmissions: teacher course set, aggregation, pagination -/

/-- The `OR` of the `course.findMany` in `getSubmissions`: direct owner or
member of the `courseTeachers` join relation. -/
def isTeacherCourse (teacherId : String) (c : Course) : Bool :=
  c.teacherId == teacherId || c.coTeacherIds.contains teacherId

/-- The course set `getSubmissions` collects for the requesting teacher. -/
def teacherCourses (courses : List Course) (teacherId : String) :
    List Course :=
  courses.filter (isTeacherCourse teacherId)

/-- The base `where` of `getSubmissions` with no optional filters:
`courseId in courseIds`. -/
def inTeacherCourses (courses : List Course) (teacherId : String) (l : Log) :
    Bool :=
  ((teacherCourses courses teacherId).map Course.id).contains l.courseId

/-- The `total` of the `getSubmissions` pagination envelope:
`prisma.log.count({ where })` with the plain where clause, DRAFT rows
included. -/
def getSubmissionsTotal (courses : List Course) (db : List Log)
    (teacherId : String) : Nat :=
  (db.filter (inTeacherCourses courses teacherId)).length

/-- The rows the `getSubmissions` `findMany` draws from: the same where
clause with `NOT: { status: DRAFT }` added. -/
def getSubmissionsRows (courses : List Course) (db : List Log)
    (teacherId : String) : List Log :=
  db.filter (fun l =>
    inTeacherCourses courses teacherId l && l.status != .DRAFT)

/-- The `skip`/`take` page window applied to the non-DRAFT rows. -/
def getSubmissionsPage (courses : List Course) (db : List Log)
    (teacherId : String) (page limit : Nat) : List Log :=
  ((getSubmissionsRows courses db teacherId).drop ((page - 1) * limit)).take
    limit

/-- The per-group statistics of the `getSubmissions` aggregation. -/
structure SubmissionStats where
  totalCases : Nat
  approvedCases : Nat
  rejectedCases : Nat
  pendingCases : Nat
  completedCases : Nat
  overallStatus : String
deriving DecidableEq, Repr

/-- The aggregation body of `getSubmissions` over one (learner, course)
group's case statuses: counts by filtering, pending = SUBMITTED plus
RESUBMITTED, and the overall status chain rejected / pending / approved /
draft driven by those counts. -/
def computeSubmissionStats (cases : List LogStatus) : SubmissionStats :=
  let totalCases := cases.length
  let approvedCases := (cases.filter (fun c => c == .APPROVED)).length
  let rejectedCases := (cases.filter (fun c => c == .REJECTED)).length
  let submittedCases := (cases.filter (fun c =>
    c == .SUBMITTED || c == .RESUBMITTED)).length
  let pendingCases := submittedCases
  let overallStatus :=
    if 0 < rejectedCases then "rejected"
    else if 0 < pendingCases then "pending"
    else if approvedCases = totalCases ∧ 0 < totalCases then "approved"
    else "draft"
  { totalCases := totalCases, approvedCases := approvedCases,
    rejectedCases := rejectedCases, pendingCases := pendingCases,
    completedCases := approvedCases, overallStatus := overallStatus }

/-- The spec's wording of the derived group status, for refinement
comparison with `computeSubmissionStats`: any case REJECTED gives rejected,
else any pending case gives pending, else all APPROVED with at least one
case gives approved, else draft. -/
def specOverallStatus (cases : List LogStatus) : String :=
  if cases.contains .REJECTED then "rejected"
  else if cases.any (fun c => c == .SUBMITTED || c == .RESUBMITTED) then
    "pending"
  else if cases.all (fun c => c == .APPROVED) && !cases.isEmpty then
    "approved"
  else "draft"

/-! ### Concrete fixtures used to instantiate the theorems -/

/-- A representative stored log (SUBMITTED, authored by learner-1 in
course-1). -/
def baseLog : Log where
  id := "log-1"
  caseNo := "CASE-2024-001"
  date := ⟨2024, 3, 15⟩
  age := 45
  sex := .MALE
  uhid := "UH-1001"
  chiefComplaint := "Chest pain"
  historyPresenting := "Two days of chest pain"
  pastHistory := ""
  personalHistory := ""
  familyHistory := ""
  clinicalExamination := "Stable vitals"
  labExaminations := ""
  diagnosis := "Angina"
  management := "Rest and medication"
  status := .SUBMITTED
  rejectionReason := none
  teacherComments := none
  submittedAt := some 100
  approvedAt := none
  rejectedAt := none
  courseId := "course-1"
  createdById := "learner-1"
  approvedById := none
  rejectedByID := none

/-- course-1: owned by teacher-1, with coteacher-1 in the join relation. -/
def mainCourse : Course := ⟨"course-1", "teacher-1", ["coteacher-1"]⟩

/-- An APPROVED log. -/
def approvedLog : Log :=
  { baseLog with status := .APPROVED, approvedAt := some 200,
                 approvedById := some "teacher-1" }

/-! ### Theorems -/

/-- C1: for every log whose status is APPROVED, every edit, delete, approve
and reject operation (on both the task and the submission endpoints) returns
an error, and the stored log is unchanged. -/
theorem approved_is_terminal (db : List Log) (course : Course)
    (actorId : String) (l : Log) (p : UpdateTaskInput) (reason : String)
    (comments reasonOpt : Option String) (now : Nat)
    (h : l.status = .APPROVED) :
    isErr (updateTask db actorId l p now) = true ∧
    applyOn l (updateTask db actorId l p now) = l ∧
    isErr (deleteTask actorId l) = true ∧
    isErr (approveTask course actorId l comments now) = true ∧
    applyOn l (approveTask course actorId l comments now) = l ∧
    isErr (rejectTask course actorId l reason now) = true ∧
    applyOn l (rejectTask course actorId l reason now) = l ∧
    isErr (approveCase course actorId l comments now) = true ∧
    applyOn l (approveCase course actorId l comments now) = l ∧
    isErr (rejectCase course actorId l reasonOpt comments now) = true ∧
    applyOn l (rejectCase course actorId l reasonOpt comments now) = l := by
  refine ⟨?_, ?_, ?_, ?_, ?_, ?_, ?_, ?_, ?_, ?_, ?_⟩ <;>
    simp only [updateTask, deleteTask, approveTask, rejectTask, approveCase,
      rejectCase, approveCaseCheck, rejectCaseCheck] <;>
    (repeat' split) <;> simp_all

/-- C1, instantiated: the APPROVED fixture log refuses all six operations
unchanged. -/
theorem approved_is_terminal_check :
    isErr (updateTask [] "learner-1" approvedLog {} 7) = true ∧
    applyOn approvedLog (updateTask [] "learner-1" approvedLog {} 7) =
      approvedLog ∧
    isErr (deleteTask "learner-1" approvedLog) = true ∧
    isErr (approveTask mainCourse "learner-1" approvedLog none 7) = true ∧
    applyOn approvedLog (approveTask mainCourse "learner-1" approvedLog none 7) =
      approvedLog ∧
    isErr (rejectTask mainCourse "learner-1" approvedLog "Needs work" 7) =
      true ∧
    applyOn approvedLog
      (rejectTask mainCourse "learner-1" approvedLog "Needs work" 7) =
      approvedLog ∧
    isErr (approveCase mainCourse "learner-1" approvedLog none 7) = true ∧
    applyOn approvedLog (approveCase mainCourse "learner-1" approvedLog none 7) =
      approvedLog ∧
    isErr (rejectCase mainCourse "learner-1" approvedLog (some "Too brief") none 7) =
      true ∧
    applyOn approvedLog
      (rejectCase mainCourse "learner-1" approvedLog (some "Too brief") none 7) =
      approvedLog :=
  approved_is_terminal [] mainCourse "learner-1" approvedLog {} "Needs work"
    none (some "Too brief") 7 rfl

/-- What `rejectTask` stores for the fixture reject: the acting teacher
lands in `approvedById`, `rejectedByID` stays null. -/
def rejectedViaTask : Log :=
  { baseLog with status := .REJECTED,
                 rejectionReason := some "Insufficient clinical detail",
                 rejectedAt := some 99,
                 approvedById := some "teacher-1" }

/-- What `rejectCase` stores for the fixture reject: no rejecter id at all. -/
def rejectedViaCase : Log :=
  { baseLog with status := .REJECTED,
                 rejectionReason := some "Insufficient clinical detail",
                 teacherComments := none,
                 rejectedAt := some 99 }

/-- C2: a successful reject of a SUBMITTED log by the course teacher sets
status, reason and `rejectedAt` as claimed, but on neither endpoint is the
schema's `rejectedByID` column written: the task endpoint stores the actor
in `approvedById` instead, the submission endpoint stores the actor
nowhere. -/
theorem reject_leaves_rejectedByID_null :
    rejectTask mainCourse "teacher-1" baseLog "Insufficient clinical detail"
        99 = .ok rejectedViaTask ∧
    rejectedViaTask.status = .REJECTED ∧
    rejectedViaTask.rejectedAt = some 99 ∧
    rejectedViaTask.rejectedByID = none ∧
    rejectedViaTask.approvedById = some "teacher-1" ∧
    rejectCase mainCourse "teacher-1" baseLog
        (some "Insufficient clinical detail") none 99 = .ok rejectedViaCase ∧
    rejectedViaCase.rejectedByID = none ∧
    rejectedViaCase.approvedById = none := by
  refine ⟨?_, rfl, rfl, rfl, rfl, ?_, rfl, rfl⟩ <;> rfl

/-- A RESUBMITTED variant of the fixture log (it had been rejected once). -/
def resubmittedLog : Log :=
  { baseLog with status := .RESUBMITTED, submittedAt := some 300 }

/-- C3, counterexample: the submission-controller approve endpoint refuses a
RESUBMITTED log of the course teacher with the 404 response, where the claim
asserts every approve endpoint succeeds from RESUBMITTED. -/
theorem approve_resubmitted_case_fails :
    resubmittedLog.status = .RESUBMITTED ∧
    mainCourse.teacherId = "teacher-1" ∧
    approveCase mainCourse "teacher-1" resubmittedLog none 500 =
      .error ⟨404,
        "Submission not found, already processed, or you do not have permission to approve it"⟩ :=
  ⟨rfl, rfl, rfl⟩

/-- C3, amended: a RESUBMITTED log is approvable by the course's primary
teacher on the task-controller endpoint, which sets `approvedById` to the
actor and `approvedAt` to now; the submission-controller endpoint accepts
only status SUBMITTED and refuses the same request. -/
theorem approve_resubmitted_amended (course : Course) (actorId : String)
    (l : Log) (comments : Option String) (now : Nat)
    (hs : l.status = .RESUBMITTED) (ht : course.teacherId = actorId)
    (hc : optOk (fun s : String => s.length ≤ 1000) comments = true) :
    approveTask course actorId l comments now =
      .ok { l with status := .APPROVED, approvedById := some actorId,
                   approvedAt := some now, rejectionReason := none } ∧
    isErr (approveCase course actorId l comments now) = true := by
  constructor
  · simp [approveTask, hc, ht, hs]
  · simp [approveCase, approveCaseCheck, hs]

/-- C3 amended, instantiated at the RESUBMITTED fixture log. -/
theorem approve_resubmitted_amended_check :
    approveTask mainCourse "teacher-1" resubmittedLog none 500 =
      .ok { resubmittedLog with
            status := .APPROVED, approvedById := some "teacher-1",
            approvedAt := some 500, rejectionReason := none } ∧
    isErr (approveCase mainCourse "teacher-1" resubmittedLog none 500) =
      true :=
  approve_resubmitted_amended mainCourse "teacher-1" resubmittedLog none 500
    rfl rfl rfl

/-- C4, counterexample: a 9-character rejection reason is accepted by both
reject endpoints, where the claim says any reason shorter than 10 characters
is refused with a ValidationError. -/
theorem nine_char_reason_accepted :
    ("too short" : String).length = 9 ∧
    rejectTask mainCourse "teacher-1" baseLog "too short" 7 =
      .ok { baseLog with
            status := .REJECTED, rejectionReason := some "too short",
            rejectedAt := some 7, approvedById := some "teacher-1" } ∧
    rejectCase mainCourse "teacher-1" baseLog (some "too short") none 7 =
      .ok { baseLog with
            status := .REJECTED, rejectionReason := some "too short",
            teacherComments := none, rejectedAt := some 7 } := by
  refine ⟨rfl, ?_, ?_⟩ <;> rfl

/-- C4, amended: a reject with an absent, empty, or (on the submission
endpoint) whitespace-only rejectionReason, or one over 1000 characters, is
refused with a 400 ValidationError and the log unchanged; every reason of
1 to 1000 characters is accepted — there is no 10-character lower bound. -/
theorem reject_reason_bounds_amended (course : Course) (actorId : String)
    (l : Log) (reason : String) (c : Option String) (now : Nat) :
    (reason.length = 0 →
      rejectTask course actorId l reason now =
        .error ⟨400, "Validation failed"⟩) ∧
    (1000 < reason.length →
      rejectTask course actorId l reason now =
        .error ⟨400, "Validation failed"⟩) ∧
    (1 ≤ reason.length → reason.length ≤ 1000 →
      course.teacherId = actorId →
      (l.status = .SUBMITTED ∨ l.status = .RESUBMITTED) →
      rejectTask course actorId l reason now =
        .ok { l with
              status := .REJECTED, rejectionReason := some (jsTrim reason),
              rejectedAt := some now, approvedById := some actorId }) ∧
    (isErr (rejectCase course actorId l none c now) = true) ∧
    (jsTrim reason = "" →
      isErr (rejectCase course actorId l (some reason) c now) = true) ∧
    (jsTrim reason ≠ "" → (jsTrim reason).length ≤ 1000 →
      course.teacherId = actorId → l.status = .SUBMITTED →
      rejectCase course actorId l (some reason) c now =
        .ok (rejectCaseWrite reason c now l)) := by
  refine ⟨?_, ?_, ?_, ?_, ?_, ?_⟩
  · intro h0
    simp only [rejectTask]
    rw [if_pos (by omega)]
  · intro h0
    simp only [rejectTask]
    rw [if_pos (by omega)]
  · intro h1 h2 ht hst
    simp only [rejectTask]
    rw [if_neg (by omega), if_neg (not_not_intro ht),
      if_neg (not_not_intro hst)]
  · simp [rejectCase]
  · intro htr
    simp [rejectCase, htr]
  · intro htr hlen ht hst
    simp only [rejectCase]
    rw [if_neg htr, if_neg (by omega),
      if_pos (by simp [rejectCaseCheck, ht, hst])]

/-- C4 amended, instantiated: the empty reason is refused, the 9-character
reason succeeds on both endpoints. -/
theorem reject_reason_bounds_amended_check :
    rejectTask mainCourse "teacher-1" baseLog "" 7 =
      .error ⟨400, "Validation failed"⟩ ∧
    rejectTask mainCourse "teacher-1" baseLog "too short" 7 =
      .ok { baseLog with
            status := .REJECTED, rejectionReason := some (jsTrim "too short"),
            rejectedAt := some 7, approvedById := some "teacher-1" } ∧
    isErr (rejectCase mainCourse "teacher-1" baseLog none none 7) = true ∧
    rejectCase mainCourse "teacher-1" baseLog (some "too short") none 7 =
      .ok (rejectCaseWrite "too short" none 7 baseLog) :=
  ⟨(reject_reason_bounds_amended mainCourse "teacher-1" baseLog "" none
      7).1 rfl,
   (reject_reason_bounds_amended mainCourse "teacher-1" baseLog "too short"
      none 7).2.2.1 (by decide) (by decide) rfl (Or.inl rfl),
   (reject_reason_bounds_amended mainCourse "teacher-1" baseLog "too short"
      none 7).2.2.2.1,
   (reject_reason_bounds_amended mainCourse "teacher-1" baseLog "too short"
      none 7).2.2.2.2.2 (by decide) (by decide) rfl rfl⟩

/-- C5, counterexample: coteacher-1 sits in course-1's `courseTeachers` join
set and the fixture log is SUBMITTED, yet every approve and reject endpoint
refuses the co-teacher, where the claim says the request is authorized and
succeeds. -/
theorem coteacher_cannot_review :
    mainCourse.coTeacherIds.contains "coteacher-1" = true ∧
    mainCourse.teacherId ≠ "coteacher-1" ∧
    baseLog.status = .SUBMITTED ∧
    approveTask mainCourse "coteacher-1" baseLog none 5 =
      .error ⟨403, "Only course teacher can approve tasks"⟩ ∧
    rejectTask mainCourse "coteacher-1" baseLog "Not enough history" 5 =
      .error ⟨403, "Only course teacher can reject tasks"⟩ ∧
    isErr (approveCase mainCourse "coteacher-1" baseLog none 5) = true ∧
    isErr (rejectCase mainCourse "coteacher-1" baseLog
      (some "Not enough history") none 5) = true := by
  refine ⟨rfl, by decide, rfl, ?_, ?_, ?_, ?_⟩ <;> rfl

/-- C5, amended: a co-teacher is included in the teacher's course set for
the submissions listing, but review actions belong to the primary owner
alone: any actor other than `course.teacherId` — co-teacher or not — is
refused by all four approve/reject endpoints. -/
theorem coteacher_review_amended (course : Course) (actorId : String)
    (l : Log) (reason : String) (comments reasonOpt : Option String)
    (now : Nat) (hne : course.teacherId ≠ actorId) :
    (course.coTeacherIds.contains actorId = true →
      isTeacherCourse actorId course = true) ∧
    isErr (approveTask course actorId l comments now) = true ∧
    isErr (rejectTask course actorId l reason now) = true ∧
    isErr (approveCase course actorId l comments now) = true ∧
    isErr (rejectCase course actorId l reasonOpt comments now) = true := by
  refine ⟨?_, ?_, ?_, ?_, ?_⟩
  · intro hco
    have hmem : actorId ∈ course.coTeacherIds := by simpa using hco
    simp [isTeacherCourse, hmem]
  all_goals
    simp only [approveTask, rejectTask, approveCase, rejectCase,
      approveCaseCheck, rejectCaseCheck]
    (repeat' split) <;> simp_all

/-- C5 amended, instantiated at the co-teacher of the fixture course. -/
theorem coteacher_review_amended_check :
    (mainCourse.coTeacherIds.contains "coteacher-1" = true →
      isTeacherCourse "coteacher-1" mainCourse = true) ∧
    isErr (approveTask mainCourse "coteacher-1" baseLog none 5) = true ∧
    isErr (rejectTask mainCourse "coteacher-1" baseLog "Not enough history" 5) =
      true ∧
    isErr (approveCase mainCourse "coteacher-1" baseLog none 5) = true ∧
    isErr (rejectCase mainCourse "coteacher-1" baseLog
      (some "Not enough history") none 5) = true :=
  coteacher_review_amended mainCourse "coteacher-1" baseLog
    "Not enough history" none (some "Not enough history") 5 (by decide)

/-- A REJECTED variant of the fixture log, carrying its rejection reason. -/
def rejectedLog : Log :=
  { baseLog with
    status := .REJECTED, rejectionReason := some "Needs more detail",
    rejectedAt := some 150, approvedById := some "teacher-1" }

/-- C6, counterexample: resubmitting a REJECTED log with target status
SUBMITTED succeeds and stamps `submittedAt`, but `rejectionReason` is not
cleared, where the claim says it is cleared regardless of which of the two
target statuses is requested. -/
theorem submit_rejected_keeps_reason :
    updateTask [] "learner-1" rejectedLog { status := some .SUBMITTED } 42 =
      .ok { rejectedLog with status := .SUBMITTED, submittedAt := some 42 } ∧
    ({ rejectedLog with
       status := .SUBMITTED, submittedAt := some 42 } : Log).rejectionReason
      = some "Needs more detail" :=
  ⟨rfl, rfl⟩

/-- C6, amended: a valid update moving a REJECTED log of its creator to
RESUBMITTED stamps `submittedAt` and clears `rejectionReason`; moving it to
SUBMITTED stamps `submittedAt` but leaves `rejectionReason` exactly as
stored. -/
theorem submit_from_rejected_amended (db : List Log) (actorId : String)
    (l : Log) (p : UpdateTaskInput) (now : Nat)
    (hc : l.createdById = actorId) (hr : l.status = .REJECTED)
    (hv : validUpdateInput p = true) (hd : caseNoDuplicate db l p = false) :
    (p.status = some .RESUBMITTED →
      updateTask db actorId l p now =
        .ok { applyContentFields p l with
              status := .RESUBMITTED, submittedAt := some now,
              rejectionReason := none }) ∧
    (p.status = some .SUBMITTED →
      updateTask db actorId l p now =
        .ok { applyContentFields p l with
              status := .SUBMITTED, submittedAt := some now } ∧
      ({ applyContentFields p l with
         status := .SUBMITTED, submittedAt := some now } : Log).rejectionReason
        = l.rejectionReason) := by
  constructor
  · intro hps
    simp only [updateTask]
    rw [if_neg (by simp [hv]), if_neg (not_not_intro hc),
      if_neg (by simp [hr]), if_neg (by simp [hd])]
    simp [applyStatusChange, hps, hr]
  · intro hps
    refine ⟨?_, rfl⟩
    simp only [updateTask]
    rw [if_neg (by simp [hv]), if_neg (not_not_intro hc),
      if_neg (by simp [hr]), if_neg (by simp [hd])]
    simp [applyStatusChange, hps, hr]

/-- C6 amended, instantiated at the REJECTED fixture log for both target
statuses. -/
theorem submit_from_rejected_amended_check :
    updateTask [] "learner-1" rejectedLog { status := some .RESUBMITTED } 42 =
      .ok { applyContentFields { status := some .RESUBMITTED } rejectedLog with
            status := .RESUBMITTED, submittedAt := some 42,
            rejectionReason := none } ∧
    updateTask [] "learner-1" rejectedLog { status := some .SUBMITTED } 42 =
      .ok { applyContentFields { status := some .SUBMITTED } rejectedLog with
            status := .SUBMITTED, submittedAt := some 42 } :=
  ⟨(submit_from_rejected_amended [] "learner-1" rejectedLog
      { status := some .RESUBMITTED } 42 rfl rfl rfl rfl).1 rfl,
   ((submit_from_rejected_amended [] "learner-1" rejectedLog
      { status := some .SUBMITTED } 42 rfl rfl rfl rfl).2 rfl).1⟩

/-- C7: with 2 logs already counted for a course in 2024 the next allocation
is CASE-2024-003; a course/year with no logs starts at CASE-(year)-001; and
in general the sequence is the course/year log count plus one, zero-padded
to at least three digits. -/
theorem case_no_allocation (db : List Log) (cid cid2 : String) (y y2 : Nat)
    (h2 : countCourseYearLogs db cid 2024 = 2)
    (h0 : countCourseYearLogs db cid2 y2 = 0) :
    generateCaseNo db cid 2024 = "CASE-2024-003" ∧
    generateCaseNo db cid2 y2 = "CASE-" ++ toString y2 ++ "-" ++ "001" ∧
    generateCaseNo db cid y =
      "CASE-" ++ toString y ++ "-" ++
        padStart (toString (countCourseYearLogs db cid y + 1)) 3 '0' := by
  refine ⟨?_, ?_, rfl⟩
  · simp only [generateCaseNo, h2]
    rfl
  · simp only [generateCaseNo, h0]
    rfl

/-- Fixture logs for case-number allocation: two 2024 logs and one 2023 log
in course-1, one 2024 log in course-2. -/
def allocDb : List Log :=
  [{ baseLog with id := "log-a", caseNo := "CASE-2024-001",
                  date := ⟨2024, 2, 10⟩ },
   { baseLog with id := "log-b", caseNo := "CASE-2024-002",
                  date := ⟨2024, 7, 1⟩ },
   { baseLog with id := "log-c", caseNo := "CASE-2023-001",
                  date := ⟨2023, 11, 5⟩ },
   { baseLog with id := "log-d", caseNo := "CASE-2024-0X1",
                  date := ⟨2024, 5, 20⟩, courseId := "course-2" }]

/-- C7, instantiated: course-1 with two 2024 logs allocates CASE-2024-003;
course-1 in 2025 and course-3 in 2024 both restart at 001. -/
theorem case_no_allocation_check :
    generateCaseNo allocDb "course-1" 2024 = "CASE-2024-003" ∧
    generateCaseNo allocDb "course-1" 2025 =
      "CASE-" ++ toString 2025 ++ "-" ++ "001" ∧
    generateCaseNo allocDb "course-3" 2024 =
      "CASE-" ++ toString 2024 ++ "-" ++ "001" :=
  ⟨(case_no_allocation allocDb "course-1" "course-1" 2024 2025 (by decide)
      (by decide)).1,
   (case_no_allocation allocDb "course-1" "course-1" 2024 2025 (by decide)
      (by decide)).2.1,
   (case_no_allocation allocDb "course-1" "course-3" 2024 2024 (by decide)
      (by decide)).2.1⟩

/-- C8: the aggregation's count-driven overall status agrees with the spec's
membership wording (rejected dominates pending dominates approved, else
draft), and the {APPROVED, SUBMITTED, REJECTED} group aggregates to status
rejected with totalCases 3, pendingCases 1, approvedCases 1. -/
theorem submission_aggregation (cs : List LogStatus) :
    (computeSubmissionStats cs).overallStatus = specOverallStatus cs ∧
    computeSubmissionStats [.APPROVED, .SUBMITTED, .REJECTED] =
      { totalCases := 3, approvedCases := 1, rejectedCases := 1,
        pendingCases := 1, completedCases := 1,
        overallStatus := "rejected" } := by
  refine ⟨?_, by decide⟩
  have e1 : (0 < (cs.filter (fun c => c == LogStatus.REJECTED)).length) ↔
      LogStatus.REJECTED ∈ cs := by
    rw [← List.countP_eq_length_filter, List.countP_pos_iff]
    constructor
    · rintro ⟨a, ha, hb⟩
      have hab : a = LogStatus.REJECTED := by simpa using hb
      exact hab ▸ ha
    · intro h
      exact ⟨_, h, by simp⟩
  have e2 : (cs.contains LogStatus.REJECTED = true) ↔
      LogStatus.REJECTED ∈ cs := by
    rw [List.contains_eq_any_beq, List.any_eq_true]
    constructor
    · rintro ⟨a, ha, hb⟩
      have hab : LogStatus.REJECTED = a := by simpa using hb
      exact hab ▸ ha
    · intro h
      exact ⟨_, h, by simp⟩
  have e3 : (0 < (cs.filter (fun c =>
      c == LogStatus.SUBMITTED || c == LogStatus.RESUBMITTED)).length) ↔
      ((cs.any fun c =>
        c == LogStatus.SUBMITTED || c == LogStatus.RESUBMITTED) = true) := by
    rw [← List.countP_eq_length_filter, List.countP_pos_iff,
      List.any_eq_true]
  have e4 : ((cs.filter (fun c => c == LogStatus.APPROVED)).length = cs.length
      ∧ 0 < cs.length) ↔
      (((cs.all fun c => c == LogStatus.APPROVED) && !cs.isEmpty) = true) := by
    rw [← List.countP_eq_length_filter, Bool.and_eq_true,
      List.countP_eq_length, List.all_eq_true]
    simp [List.isEmpty_iff, List.length_pos]
  simp only [computeSubmissionStats, specOverallStatus]
  by_cases h1 : LogStatus.REJECTED ∈ cs
  · rw [if_pos (e1.mpr h1), if_pos (e2.mpr h1)]
  · have a1 : ¬ 0 < (cs.filter (fun c => c == LogStatus.REJECTED)).length :=
      fun hc => h1 (e1.mp hc)
    have a2 : ¬ cs.contains LogStatus.REJECTED = true :=
      fun hc => h1 (e2.mp hc)
    rw [if_neg a1, if_neg a2]
    by_cases h2 : (cs.any fun c =>
        c == LogStatus.SUBMITTED || c == LogStatus.RESUBMITTED) = true
    · rw [if_pos (e3.mpr h2), if_pos h2]
    · have b1 : ¬ 0 < (cs.filter (fun c =>
          c == LogStatus.SUBMITTED || c == LogStatus.RESUBMITTED)).length :=
        fun hc => h2 (e3.mp hc)
      rw [if_neg b1, if_neg h2]
      by_cases h3 : ((cs.all fun c => c == LogStatus.APPROVED) && !cs.isEmpty)
          = true
      · rw [if_pos (e4.mpr h3), if_pos h3]
      · have c1 : ¬ ((cs.filter (fun c => c == LogStatus.APPROVED)).length =
            cs.length ∧ 0 < cs.length) := fun hc => h3 (e4.mp hc)
        rw [if_neg c1, if_neg h3]

/-- C9: under the check-check-write-write interleaving of `approveCase` and
`rejectCase` on the fixture SUBMITTED log, both precondition reads pass, both
requests report success, and the stored row ends REJECTED while still
carrying the approve's `approvedById`/`approvedAt`; only under serial
execution does the second request's precondition read fail. -/
theorem race_both_requests_succeed :
    baseLog.status = .SUBMITTED ∧
    interleavedApproveReject mainCourse "teacher-1" "teacher-1"
        "Missing lab results" 10 11 baseLog =
      (true, true,
        { baseLog with
          status := .REJECTED, approvedById := some "teacher-1",
          approvedAt := some 10, teacherComments := none,
          rejectionReason := some "Missing lab results",
          rejectedAt := some 11 }) ∧
    rejectCaseCheck mainCourse "teacher-1"
        (approveCaseWrite "teacher-1" none 10 baseLog) = false :=
  ⟨rfl, rfl, rfl⟩

/-- Filtering by a conjunction drops at least the witness that satisfies the
first conjunct but not the second. -/
theorem length_filter_and_lt {α : Type} (w q : α → Bool) :
    ∀ xs : List α, (∃ x ∈ xs, w x = true ∧ q x = false) →
      (xs.filter (fun x => w x && q x)).length < (xs.filter w).length := by
  intro xs
  induction xs with
  | nil =>
    rintro ⟨x, hx, -, -⟩
    exact absurd hx (List.not_mem_nil x)
  | cons a t ih =>
    rintro ⟨x, hx, hw, hq⟩
    have hle : (t.filter (fun x => w x && q x)).length ≤
        (t.filter w).length := by
      rw [← List.countP_eq_length_filter, ← List.countP_eq_length_filter]
      exact List.countP_mono_left (fun x _ h =>
        (Bool.and_eq_true (w x) (q x) ▸ h).1)
    rcases List.mem_cons.mp hx with rfl | hxt
    · simp only [List.filter_cons, hw, hq, Bool.and_false, if_true, if_false]
      simpa using Nat.lt_succ_of_le hle
    · have hlt := ih ⟨x, hxt, hw, hq⟩
      simp only [List.filter_cons]
      cases hwa : w a <;> cases hqa : q a <;>
        simp [hwa, hqa] <;> omega

/-- C10: whenever some log matching the teacher's base filter is a DRAFT,
the pagination `total` (counted without the DRAFT exclusion) strictly
exceeds the number of rows the listing can ever return (fetched with the
DRAFT exclusion); every page is cut from those non-DRAFT rows. -/
theorem draft_inflates_submission_total (courses : List Course)
    (db : List Log) (teacherId : String) (page limit : Nat)
    (h : ∃ l ∈ db, inTeacherCourses courses teacherId l = true ∧
      l.status = .DRAFT) :
    (getSubmissionsRows courses db teacherId).length <
      getSubmissionsTotal courses db teacherId ∧
    (getSubmissionsPage courses db teacherId page limit).length ≤
      (getSubmissionsRows courses db teacherId).length ∧
    (∀ l ∈ getSubmissionsRows courses db teacherId, l.status ≠ .DRAFT) := by
  refine ⟨?_, ?_, ?_⟩
  · apply length_filter_and_lt
    obtain ⟨l, hl, hw, hs⟩ := h
    exact ⟨l, hl, hw, by simp [hs]⟩
  · simp only [getSubmissionsPage, List.length_take, List.length_drop]
    omega
  · intro l hl
    have hp := (List.mem_filter.mp hl).2
    have : l.status ≠ LogStatus.DRAFT := by
      intro hd
      simp [hd] at hp
    exact this

/-- A DRAFT log in the fixture teacher's course. -/
def draftLog : Log :=
  { baseLog with id := "log-draft", caseNo := "CASE-2024-009",
                 status := .DRAFT, submittedAt := none }

/-- C10, instantiated: with one SUBMITTED and one DRAFT log in the teacher's
course, the listing can show at most one row while `total` counts two. -/
theorem draft_inflates_submission_total_check :
    (getSubmissionsRows [mainCourse] [baseLog, draftLog] "teacher-1").length <
      getSubmissionsTotal [mainCourse] [baseLog, draftLog] "teacher-1" ∧
    (getSubmissionsPage [mainCourse] [baseLog, draftLog] "teacher-1"
        1 14).length ≤
      (getSubmissionsRows [mainCourse] [baseLog, draftLog] "teacher-1").length ∧
    (∀ l ∈ getSubmissionsRows [mainCourse] [baseLog, draftLog] "teacher-1",
      l.status ≠ .DRAFT) :=
  draft_inflates_submission_total [mainCourse] [baseLog, draftLog] "teacher-1"
    1 14 ⟨draftLog, by decide, by decide, rfl⟩

end LogBook
